import Mathlib

/-!
Shallow embedding of the itinerary generation and reconciliation pipeline of the
travel-planner repository (AIService, PlacesService, MemoryService, mock data
utilities and the App-level structural edits), together with theorems settling
the frozen claims about it.

Modelling conventions:
* Calendar dates are modelled as natural numbers counting days from an epoch.
  The JavaScript pattern `d = new Date(start); d.setDate(start.getDate() + i);
  d.toISOString().split('T')[0]` advances the start date by `i` calendar days,
  which we model as `start + i`.
* JavaScript values that may be `undefined`/missing are modelled as `Option`;
  the `x || d` idiom on strings (missing or empty falls back to `d`) is `jsOr`.
* `JSON.parse` of a model reply is an external operation: functions that parse
  a reply take the parse outcome (`Option` of the structured shape) as input.
  `none` models a thrown parse error; the nested `Option (List DayJ)` models
  the presence check on the `itinerary` field.
* `Math.random()` draws feeding the cosmetic fun-fact picker are supplied as an
  explicit `Nat`-valued argument, used modulo the candidate-list length.
-/

namespace TravelPlanner

/-- The `x || d` idiom of the source on string-or-undefined values: `undefined`
and the empty string fall back to the default. -/
def jsOr (v : Option String) (d : String) : String :=
  match v with
  | none => d
  | some s => if s = "" then d else s

/-- `l[i] || d` on a JavaScript array of strings. -/
def jsIdxOr (l : List String) (i : Nat) (d : String) : String :=
  jsOr l[i]? d

/-- `l[0]` rendered by template interpolation: a missing element prints as
the string `undefined`. -/
def jsHead (l : List String) : String :=
  match l with
  | [] => "undefined"
  | s :: _ => s

/-- Trip parameters collected by the input form (`TravelInfo` in src/src/types). -/
structure TravelInfo where
  destination : String
  startDate : Nat
  endDate : Nat
  numberOfDays : Nat
  budget : String
  travelGroup : String
  includeKids : Bool
  includeElderly : Bool
  deriving DecidableEq, Repr

/-- Trip preferences (`TripPreferences` in src/src/types). -/
structure TripPreferences where
  tripType : List String
  cuisinePreferences : List String
  dietaryRequirements : List String
  deriving DecidableEq, Repr

/-- A meal suggestion; `aiNote` is the extra field some generator paths attach. -/
structure MealSuggestion where
  restaurant : String
  cuisine : String
  location : String
  priceRange : String
  specialties : List String
  aiNote : Option String := none
  deriving DecidableEq, Repr

/-- The `meals` object of a day.  Each slot is optional because model-supplied
days may lack slots; the local generators always fill all three. -/
structure MealsJ where
  breakfast : Option MealSuggestion
  lunch : Option MealSuggestion
  dinner : Option MealSuggestion
  deriving DecidableEq, Repr

/-- An activity record.  `travelTime`/`transportMode` are optional because the
model may omit them; the generators always set them. -/
structure ActivityJ where
  id : String
  time : String
  title : String
  description : String
  location : String
  duration : String
  travelTime : Option String
  transportMode : Option String
  funFact : String
  tips : List String
  deriving DecidableEq, Repr

/-- A day plan of the itinerary. -/
structure DayJ where
  day : Nat
  date : Nat
  activities : List ActivityJ
  meals : MealsJ
  travelTips : List String
  deriving DecidableEq, Repr

/-- A trip plan; only the `itinerary` field takes part in the pipeline logic
(the `id`/`travelInfo`/`preferences`/`createdAt` fields are passive data). -/
structure TripPlan where
  itinerary : List DayJ
  deriving DecidableEq, Repr

namespace AIService

/-- `AIService.generateEnhancedActivities` (the no-credential generation path):
one cultural-quarter activity, plus one adventure activity when the trip-style
tags include `adventure`. -/
def generateEnhancedActivities (day : Nat) (travelInfo : TravelInfo)
    (preferences : TripPreferences) : List ActivityJ :=
  let baseActivities : List ActivityJ :=
    [{ id := toString day ++ "-1"
       time := "9:30 AM"
       title := travelInfo.destination ++ " Cultural Quarter"
       description := "Explore the vibrant cultural district with AI-curated experiences tailored to your interests in "
         ++ String.intercalate " and " preferences.tripType ++ "."
       location := travelInfo.destination ++ " Cultural District"
       duration := "2.5 hours"
       travelTime := some "15 minutes"
       transportMode := some "walking"
       funFact := "This area was specifically chosen based on your preference for "
         ++ jsHead preferences.tripType ++ " experiences."
       tips := ["AI recommends visiting between 9:30-11:30 AM for optimal lighting",
                "Based on your budget, we suggest the premium guided tour option",
                "Your dietary preferences have been noted for any food tastings"] }]
  if preferences.tripType.contains "adventure" then
    baseActivities ++
      [{ id := toString day ++ "-adventure"
         time := "2:00 PM"
         title := "Adventure Experience"
         description := "AI-selected adventure activity matching your thrill-seeking preferences."
         location := "Adventure Zone"
         duration := "3 hours"
         travelTime := some "20 minutes"
         transportMode := some "taxi"
         funFact := "This activity was chosen based on your love for adventure experiences."
         tips := ["Wear comfortable athletic clothing", "Bring water and snacks"] }]
  else baseActivities

/-- `AIService.generatePersonalizedMeals`. -/
def generatePersonalizedMeals (travelInfo : TravelInfo)
    (preferences : TripPreferences) : MealsJ :=
  let cuisinePrefs :=
    if preferences.cuisinePreferences.length > 0 then jsHead preferences.cuisinePreferences
    else "Local"
  { breakfast := some
      { restaurant := "AI-Selected Morning Spot"
        cuisine := cuisinePrefs
        location := travelInfo.destination ++ " Center"
        priceRange := if travelInfo.budget = "Economy" then "$" else "$$"
        specialties := [cuisinePrefs ++ " breakfast specialties", "Fresh local ingredients"]
        aiNote := some "Selected based on your cuisine preferences and dietary requirements" }
    lunch := some
      { restaurant := "Personalized Lunch Choice"
        cuisine := jsIdxOr preferences.cuisinePreferences 1 cuisinePrefs
        location := "Near your afternoon activities"
        priceRange := if travelInfo.budget = "Economy" then "$"
          else if travelInfo.budget = "Premium" then "$$" else "$$$"
        specialties := ["Regional favorites", "Dietary-friendly options"]
        aiNote := some "Optimally located between your morning and afternoon activities" }
    dinner := some
      { restaurant := "AI-Curated Evening Dining"
        cuisine := "Fine " ++ cuisinePrefs
        location := travelInfo.destination ++ " Dining District"
        priceRange := if travelInfo.budget = "Economy" then "$$" else "$$$"
        specialties := ["Chef recommendations", "Wine pairings", "Romantic ambiance"]
        aiNote := some "Perfect for your travel group and budget preferences" } }

/-- `AIService.generatePersonalizedTips`. -/
def generatePersonalizedTips (preferences : TripPreferences) : List String :=
  let baseTips := ["AI-optimized route planning saves 30% travel time",
                   "Personalized recommendations based on your preferences",
                   "Real-time updates available through the AI assistant"]
  if preferences.dietaryRequirements.length > 0 then
    baseTips ++ ["All restaurants verified for "
      ++ String.intercalate " and " preferences.dietaryRequirements ++ " options"]
  else baseTips

/-- `AIService.generateMockItinerary`: the itinerary synthesized when no model
credential is configured (or the model call failed). -/
def generateMockItinerary (travelInfo : TravelInfo)
    (preferences : TripPreferences) : List DayJ :=
  (List.range travelInfo.numberOfDays).map fun i =>
    { day := i + 1
      date := travelInfo.startDate + i
      activities := generateEnhancedActivities (i + 1) travelInfo preferences
      meals := generatePersonalizedMeals travelInfo preferences
      travelTips := generatePersonalizedTips preferences }

end AIService

namespace MockData

/-- `generateDayActivities` of src/src/utils/mockData.ts: four fixed activities
(historical centre, market, museum, sunset viewpoint) plus a night adventure
tour when the trip-style tags include `adventure`. -/
def generateDayActivities (day : Nat) (destination : String)
    (preferences : TripPreferences) : List ActivityJ :=
  let activities : List ActivityJ :=
    [{ id := toString day ++ "-1"
       time := "9:00 AM"
       title := destination ++ " Historical Center"
       description := "Explore the historic heart of " ++ destination
         ++ " with guided walking tour through ancient streets, visiting iconic landmarks and learning about local culture and history."
       location := destination ++ " Old Town"
       duration := "2.5 hours"
       travelTime := some "15 minutes"
       transportMode := some "walking"
       funFact := "The historic center of " ++ destination
         ++ " dates back over 800 years and contains some of the best-preserved medieval architecture in the region."
       tips := ["Start early to avoid crowds",
                "Wear comfortable walking shoes",
                "Bring a camera for stunning architecture photos",
                "Consider hiring a local guide for deeper insights"] },
     { id := toString day ++ "-2"
       time := "12:30 PM"
       title := "Local Market Experience"
       description := "Immerse yourself in local culture at the bustling traditional market. Sample local delicacies, interact with friendly vendors, and discover unique handcrafted souvenirs."
       location := "Central Market Square"
       duration := "1.5 hours"
       travelTime := some "10 minutes"
       transportMode := some "walking"
       funFact := "This market has been operating continuously for over 300 years and is where locals still do their daily shopping."
       tips := ["Bring cash for small purchases",
                "Try the local street food specialties",
                "Practice basic local greetings",
                "Bargaining is expected and welcomed"] },
     { id := toString day ++ "-3"
       time := "3:00 PM"
       title := destination ++ " Art Museum"
       description := "Discover an impressive collection of local and international artworks spanning centuries. The museum features contemporary exhibitions alongside permanent classical collections."
       location := "Museum District"
       duration := "2 hours"
       travelTime := some "20 minutes"
       transportMode := some "taxi"
       funFact := "The museum houses the world\x27s largest collection of regional artists from the 18th century."
       tips := ["Audio guides available in multiple languages",
                "Photography allowed in most areas",
                "Student discounts available with ID",
                "Museum cafe serves excellent local pastries"] },
     { id := toString day ++ "-4"
       time := "6:00 PM"
       title := "Sunset Viewpoint"
       description := "End your day with breathtaking panoramic views of the city from the famous viewpoint. Watch the golden hour transform the cityscape into a magical landscape."
       location := "Hilltop Viewpoint"
       duration := "1 hour"
       travelTime := some "25 minutes"
       transportMode := some "metro"
       funFact := "This viewpoint offers 360-degree views and is considered one of the most romantic spots in the city."
       tips := ["Arrive 30 minutes before sunset",
                "Bring a light jacket as it gets windy",
                "Perfect spot for proposals or special moments",
                "Small cafe serves hot beverages"] }]
  if preferences.tripType.contains "adventure" then
    activities ++
      [{ id := toString day ++ "-5"
         time := "8:00 PM"
         title := "Night Adventure Tour"
         description := "Experience the city\x27s nightlife with a guided adventure tour including night photography, local pubs, and hidden gems that come alive after dark."
         location := "Entertainment District"
         duration := "2 hours"
         travelTime := some "15 minutes"
         transportMode := some "walking"
         funFact := "The night tour reveals secret passages and underground tunnels used by locals for centuries."
         tips := ["Wear comfortable shoes for walking",
                  "Bring a light jacket",
                  "Camera recommended for night shots",
                  "Tour includes welcome drink"] }]
  else activities

/-- `generateMockItinerary` of src/src/utils/mockData.ts (the App-level error
fallback); the passive `id`/`travelInfo`/`preferences`/`createdAt` fields of
the returned `TripPlan` are not modelled. -/
def generateMockItinerary (travelInfo : TravelInfo)
    (preferences : TripPreferences) : TripPlan :=
  { itinerary := (List.range travelInfo.numberOfDays).map fun i =>
      { day := i + 1
        date := travelInfo.startDate + i
        activities := generateDayActivities (i + 1) travelInfo.destination preferences
        meals :=
          { breakfast := some
              { restaurant := "Local Cafe " ++ toString (i + 1)
                cuisine := "Local"
                location := travelInfo.destination ++ " Downtown"
                priceRange := "$$"
                specialties := ["Fresh pastries", "Local coffee", "Traditional breakfast"] }
            lunch := some
              { restaurant := "Heritage Restaurant " ++ toString (i + 1)
                cuisine := jsIdxOr preferences.cuisinePreferences 0 "Local"
                location := "Near attractions"
                priceRange := if travelInfo.budget = "Economy" then "$"
                  else if travelInfo.budget = "Premium" then "$$" else "$$$"
                specialties := ["Regional specialties", "Fresh ingredients", "Authentic flavors"] }
            dinner := some
              { restaurant := "Fine Dining " ++ toString (i + 1)
                cuisine := jsIdxOr preferences.cuisinePreferences 1 "Continental"
                location := travelInfo.destination ++ " Center"
                priceRange := if travelInfo.budget = "Economy" then "$$"
                  else if travelInfo.budget = "Premium" then "$$$" else "$$$$"
                specialties := ["Chef specials", "Wine pairing", "Romantic ambiance"] } }
        travelTips := ["Carry local currency for small vendors",
                       "Download offline maps for navigation",
                       "Respect local customs and dress codes",
                       "Stay hydrated and use sunscreen"] } }

end MockData

/-! ### String scanning primitives

Executable models of the JavaScript regex scans used by the response parser.
They implement leftmost matching with greedy single-pass consumption; the
full backtracking of the JS engine (which only matters for exotic inputs,
e.g. a separator character reclaimed as capture text) is not reproduced. -/

/-- `pat` is a prefix of `l` (case-sensitive). -/
def listHasPrefix : List Char → List Char → Bool
  | _, [] => true
  | [], _ :: _ => false
  | a :: as, b :: bs => a == b && listHasPrefix as bs

/-- `pat` (given in lower case) is a prefix of `l` up to case. -/
def listHasPrefixCI : List Char → List Char → Bool
  | _, [] => true
  | [], _ :: _ => false
  | a :: as, b :: bs => a.toLower == b && listHasPrefixCI as bs

/-- `pat` occurs somewhere in `l`. -/
def listHasInfix (pat : List Char) : List Char → Bool
  | [] => listHasPrefix [] pat
  | c :: cs => listHasPrefix (c :: cs) pat || listHasInfix pat cs

/-- JavaScript `s.includes(pat)`. -/
def sIncludes (s pat : String) : Bool :=
  listHasInfix pat.data s.data

/-- First character index at which `pat` occurs, JavaScript `s.indexOf(pat)`. -/
def indexOfFrom (pat : List Char) : List Char → Nat → Option Nat
  | [], i => if pat.isEmpty then some i else none
  | c :: cs, i =>
    if listHasPrefix (c :: cs) pat then some i else indexOfFrom pat cs (i + 1)

/-- JavaScript `s.indexOf(pat)` (as an `Option` instead of `-1`). -/
def indexOfSub (s pat : String) : Option Nat :=
  indexOfFrom pat.data s.data 0

/-- JavaScript `s.substring(start, stop)` (indices clamp). -/
def substrRange (s : String) (start stop : Nat) : String :=
  String.mk ((s.data.drop start).take (stop - start))

/-- JavaScript `s.split` on a character class. -/
def splitOnAnyGo (delims : List Char) : List Char → List Char → List String
  | [], acc => [String.mk acc.reverse]
  | c :: cs, acc =>
    if delims.contains c then String.mk acc.reverse :: splitOnAnyGo delims cs []
    else splitOnAnyGo delims cs (c :: acc)

/-- JavaScript `s.split(/[delims]/)`. -/
def splitOnAny (delims : List Char) (s : String) : List String :=
  splitOnAnyGo delims s.data []

/-- The separator class `[:\-\s]` of the parsing regexes. -/
def isSep (c : Char) : Bool :=
  c == ':' || c == '-' || c.isWhitespace

/-- The capture class `[^\n\r]` (any character but a line break). -/
def notCRLF (c : Char) : Bool :=
  !(c == '\n' || c == '\r')

/-- Map elements together with their 0-based position (the `for` loops of the
source that use the element index). -/
def enumMap (f : Nat → α → β) : Nat → List α → List β
  | _, [] => []
  | k, a :: as => f k a :: enumMap f (k + 1) as

namespace AIService

/-- The clock part `\d{1,2}:\d{2}` of the time regex: returns the matched
characters and the rest (preferring the two-digit hour, as the greedy regex
does). -/
def matchTimeCore (l : List Char) : Option (List Char × List Char) :=
  match l with
  | c1 :: c2 :: c3 :: c4 :: c5 :: rest =>
    if c1.isDigit && c2.isDigit && c3 == ':' && c4.isDigit && c5.isDigit then
      some ([c1, c2, c3, c4, c5], rest)
    else if c1.isDigit && c2 == ':' && c3.isDigit && c4.isDigit then
      some ([c1, c2, c3, c4], c5 :: rest)
    else none
  | [c1, c2, c3, c4] =>
    if c1.isDigit && c2 == ':' && c3.isDigit && c4.isDigit then
      some ([c1, c2, c3, c4], [])
    else none
  | _ => none

/-- The `\s*(?:[AP]M)?` tail of the time group: whitespace followed by a
(case-insensitive) AM/PM marker; `none` when no marker follows (the
whitespace is then left for the separator class). -/
def matchAmPm (l : List Char) : Option (List Char × List Char) :=
  let ws := l.takeWhile Char.isWhitespace
  match l.drop ws.length with
  | a :: m :: rest =>
    if (a == 'A' || a == 'a' || a == 'P' || a == 'p') && (m == 'M' || m == 'm') then
      some (ws ++ [a, m], rest)
    else none
  | _ => none

/-- One attempted match of `/(\d{1,2}:\d{2}\s*(?:[AP]M)?)[:\-\s]*([^\n\r]+)/i`
at the head of `l`: yields (time group, raw activity text, rest). -/
def tryTimeActivityAt (l : List Char) : Option (String × String × List Char) :=
  match matchTimeCore l with
  | none => none
  | some (tc, r1) =>
    let (timeChars, r2) :=
      match matchAmPm r1 with
      | some (ap, r) => (tc ++ ap, r)
      | none => (tc, r1)
    let seps := r2.takeWhile isSep
    let r3 := r2.drop seps.length
    let titleChars := r3.takeWhile notCRLF
    if titleChars.isEmpty then none
    else some (String.mk timeChars, String.mk titleChars, r3.drop titleChars.length)

/-- The global `exec` loop over the time/activity regex (fuel-indexed scan;
the fuel starts at one more than the character count, which suffices since
every step consumes at least one character). -/
def scanTimeActivities : Nat → List Char → List (String × String)
  | 0, _ => []
  | _ + 1, [] => []
  | fuel + 1, c :: cs =>
    match tryTimeActivityAt (c :: cs) with
    | some (t, a, rest) => (t, a) :: scanTimeActivities fuel rest
    | none => scanTimeActivities fuel cs

/-- All `HH:MM (AM/PM) — text` matches of a day chunk, in source order. -/
def timeActivityMatches (s : String) : List (String × String) :=
  scanTimeActivities (s.length + 1) s.data

/-- One attempted match of a `(keyword)[:\-\s]*([^stops]+)` pattern at the
head of `l`, trying the (lower-case) keywords in alternation order: yields
(matched keyword, capture, rest). -/
def tryKeywordCaptureAt (kws : List String) (stops : List Char) (l : List Char) :
    Option (String × String × List Char) :=
  kws.findSome? fun kw =>
    if listHasPrefixCI l kw.data then
      let r1 := l.drop kw.length
      let seps := r1.takeWhile isSep
      let r2 := r1.drop seps.length
      let cap := r2.takeWhile (fun c => !(stops.contains c))
      if cap.isEmpty then none
      else some (kw, String.mk cap, r2.drop cap.length)
    else none

/-- Global scan of a keyword-capture pattern (the `while (regex.exec(...))`
loops of the source). -/
def scanKeywordCaptures (kws : List String) (stops : List Char) :
    Nat → List Char → List (String × String)
  | 0, _ => []
  | _ + 1, [] => []
  | fuel + 1, c :: cs =>
    match tryKeywordCaptureAt kws stops (c :: cs) with
    | some (kw, cap, rest) => (kw, cap) :: scanKeywordCaptures kws stops fuel rest
    | none => scanKeywordCaptures kws stops fuel cs

/-- All matches of a keyword-capture pattern in a string. -/
def keywordCaptures (kws : List String) (stops : List Char) (s : String) :
    List (String × String) :=
  scanKeywordCaptures kws stops (s.length + 1) s.data

/-- The capture stop class `[^\n\r.!?]` of the tip/insight/meal regexes. -/
def tipStops : List Char := ['\n', '\r', '.', '!', '?']

/-- `AIService.extractActivityDescription`: first sentence following the
title, or `none`. -/
def extractActivityDescription (content title : String) : Option String :=
  match indexOfSub content.toLower title.toLower with
  | none => none
  | some titleIndex =>
    let afterTitle := substrRange content (titleIndex + title.length)
      (titleIndex + title.length + 200)
    let sentences := splitOnAny ['.', '!', '?'] afterTitle
    if sentences.length > 1 then some ((sentences.headD "").trim ++ ".")
    else none

/-- One attempted match of `/(?:at|in|near|located)\s+([^,\n\r.!?]+)/i`. -/
def tryLocationAt (l : List Char) : Option String :=
  (["at", "in", "near", "located"] : List String).findSome? fun kw =>
    if listHasPrefixCI l kw.data then
      let r1 := l.drop kw.length
      let ws := r1.takeWhile Char.isWhitespace
      if ws.isEmpty then none
      else
        let r2 := r1.drop ws.length
        let cap := r2.takeWhile (fun c => !((',' :: tipStops).contains c))
        if cap.isEmpty then none else some (String.mk cap)
    else none

/-- Leftmost match of the location pattern. -/
def scanLocation : Nat → List Char → Option String
  | 0, _ => none
  | _ + 1, [] => none
  | fuel + 1, c :: cs =>
    match tryLocationAt (c :: cs) with
    | some cap => some cap
    | none => scanLocation fuel cs

/-- `AIService.extractLocation`: location phrase near the title, or `none`. -/
def extractLocation (content title : String) : Option String :=
  match indexOfSub content.toLower title.toLower with
  | none => none
  | some titleIndex =>
    let context := substrRange content (titleIndex - 50) (titleIndex + 150)
    match scanLocation (context.length + 1) context.data with
    | some cap => some cap.trim
    | none => none

/-- One attempted match of `/(\d+(?:\.\d+)?)\s*(?:hours?|hrs?|minutes?|mins?)/i`,
returning the whole matched text. -/
def tryDurationAt (l : List Char) : Option String :=
  let ds := l.takeWhile Char.isDigit
  if ds.isEmpty then none
  else
    let r1 := l.drop ds.length
    let (frac, r2) :=
      match r1 with
      | '.' :: rest =>
        let fs := rest.takeWhile Char.isDigit
        if fs.isEmpty then (([] : List Char), r1)
        else ('.' :: fs, rest.drop fs.length)
      | _ => (([] : List Char), r1)
    let ws := r2.takeWhile Char.isWhitespace
    let r3 := r2.drop ws.length
    (["hours", "hour", "hrs", "hr", "minutes", "minute", "mins", "min"] :
        List String).findSome? fun u =>
      if listHasPrefixCI r3 u.data then
        some (String.mk (ds ++ frac ++ ws ++ r3.take u.length))
      else none

/-- Leftmost match of the duration pattern. -/
def scanDuration : Nat → List Char → Option String
  | 0, _ => none
  | _ + 1, [] => none
  | fuel + 1, c :: cs =>
    match tryDurationAt (c :: cs) with
    | some m => some m
    | none => scanDuration fuel cs

/-- `AIService.extractDuration`: duration phrase following the title, or
`none`. -/
def extractDuration (content title : String) : Option String :=
  match indexOfSub content.toLower title.toLower with
  | none => none
  | some titleIndex =>
    let context := substrRange content titleIndex (titleIndex + 100)
    scanDuration (context.length + 1) context.data

/-- `AIService.extractActivityTips`: up to three tip captures from the day
content, with a fixed default when none match (the title argument is unused
by the source as well). -/
def extractActivityTips (content _title : String) : List String :=
  let tips := ((keywordCaptures ["tip", "recommendation", "advice"] tipStops
    content).map (fun m => m.2.trim)).take 3
  if tips.length > 0 then tips
  else ["AI-optimized experience", "Recommended timing for best results"]

/-- `AIService.extractTravelTips`: up to four travel-tip captures, with four
fixed defaults when none match. -/
def extractTravelTips (content : String) : List String :=
  let tips := ((keywordCaptures ["travel tip", "important", "remember", "note"]
    tipStops content).map (fun m => m.2.trim)).take 4
  if tips.length > 0 then tips
  else ["AI-optimized route planning",
        "Real-time recommendations available",
        "Local insights included",
        "Weather-appropriate suggestions"]

/-- The destination-keyed fun facts of `generateEnhancedFunFact`, in source
order. -/
def destinationFacts : List (String × String) :=
  [("paris", "Did you know that Paris has more than 400 parks and gardens, making it one of the greenest capitals in Europe?"),
   ("london", "London\x27s history spans over 2,000 years, and it\x27s home to four UNESCO World Heritage Sites."),
   ("tokyo", "Tokyo is the world\x27s most populous metropolitan area, with over 37 million residents."),
   ("rome", "Rome wasn\x27t built in a day - it actually took over 1,000 years to construct the city we see today."),
   ("dubai", "Dubai transforms 25% of its skyline every 5 years, making it one of the fastest-changing cities on Earth."),
   ("mumbai", "Mumbai is home to Bollywood, producing over 1,000 films annually - more than Hollywood!"),
   ("bangkok", "Bangkok has over 400 Buddhist temples, earning it the nickname \x22City of Angels\x22."),
   ("barcelona", "Barcelona\x27s famous Sagrada Familia has been under construction for over 140 years."),
   ("amsterdam", "Amsterdam has more canals than Venice and more bridges than Paris!"),
   ("sydney", "Sydney Harbour Bridge is nicknamed \x22The Coathanger\x22 and took 8 years to build.")]

/-- The category-keyed fun-fact variants of `generateEnhancedFunFact`, in
source order. -/
def categoryFunFacts (destination : String) : List (String × List String) :=
  [("museum",
    ["This museum houses over 10,000 artifacts spanning centuries of " ++ destination ++ "\x27s rich cultural heritage.",
     "The architecture of this building is considered one of the finest examples of its period in " ++ destination ++ ".",
     "This cultural institution attracts over 500,000 visitors annually from around the world."]),
   ("market",
    ["This traditional market has been operating continuously for over 200 years in " ++ destination ++ ".",
     "Local vendors here represent families who have been trading for generations.",
     "The market features over 150 stalls selling everything from spices to handcrafted souvenirs."]),
   ("temple",
    ["This sacred site is considered one of the most spiritually significant locations in " ++ destination ++ ".",
     "The intricate carvings and architecture took master craftsmen over 50 years to complete.",
     "Thousands of pilgrims visit this holy site daily for prayer and meditation."]),
   ("park",
    ["This green oasis spans over 100 acres and is home to more than 200 species of plants.",
     "The park was designed by renowned landscape architects and opened to the public in the early 1900s.",
     "It serves as the lungs of " ++ destination ++ ", providing fresh air and tranquility to millions of visitors."]),
   ("food",
    ["This culinary experience features recipes that have been passed down through generations.",
     "The chef sources ingredients from local farmers within a 50-mile radius of " ++ destination ++ ".",
     "This dining establishment has been recognized by international food critics for its authentic flavors."]),
   ("viewpoint",
    ["This vantage point offers 360-degree panoramic views spanning up to 50 miles on clear days.",
     "The best time to visit is during golden hour, approximately 1 hour before sunset.",
     "This location has been featured in numerous films and is considered one of " ++ destination ++ "\x27s most photogenic spots."]),
   ("historical",
    ["This historical site dates back over 800 years and has witnessed countless significant events.",
     "Archaeological excavations have revealed artifacts that provide insights into ancient civilizations.",
     "The preservation efforts here represent one of the most successful heritage conservation projects in " ++ destination ++ "."])]

/-- The category-match condition of `generateEnhancedFunFact` (category name
or its listed synonyms occurring in the lower-cased title). -/
def categoryMatches (titleLower cat : String) : Bool :=
  sIncludes titleLower cat ||
  (cat == "museum" && (sIncludes titleLower "gallery" || sIncludes titleLower "art")) ||
  (cat == "market" && (sIncludes titleLower "bazaar" || sIncludes titleLower "shopping")) ||
  (cat == "temple" && (sIncludes titleLower "church" || sIncludes titleLower "mosque")) ||
  (cat == "park" && (sIncludes titleLower "garden" || sIncludes titleLower "nature")) ||
  (cat == "food" && (sIncludes titleLower "restaurant" || sIncludes titleLower "dining")) ||
  (cat == "viewpoint" && (sIncludes titleLower "view" || sIncludes titleLower "sunset")) ||
  (cat == "historical" && (sIncludes titleLower "heritage" || sIncludes titleLower "ancient"))

/-- `AIService.generateEnhancedFunFact`; the description argument is unused by
the source too, and `rand` stands for the `Math.random()` draw picking among
a category\x27s variants. -/
def generateEnhancedFunFact (title destination _description : String) (rand : Nat) : String :=
  let titleLower := title.toLower
  let destinationLower := destination.toLower
  match destinationFacts.find? (fun p => sIncludes destinationLower p.1) with
  | some p => p.2
  | none =>
    match (categoryFunFacts destination).find? (fun p => categoryMatches titleLower p.1) with
    | some p => p.2.getD (rand % p.2.length) ""
    | none =>
      "This carefully curated experience in " ++ destination
        ++ " offers unique insights into local culture and has been optimized based on traveler reviews and expert recommendations."

/-- The `^[-*•]\s*` bullet strip applied to extracted titles. -/
def stripBullet (s : String) : String :=
  match s.data with
  | c :: cs =>
    if c == '-' || c == '*' || c == '•' then String.mk (cs.dropWhile Char.isWhitespace)
    else s
  | [] => s

/-- The single generic activity synthesized when a day chunk yields no
time-labelled matches. -/
def defaultExplorationActivity (dayNumber : Nat) (destination : String)
    (rand : Nat) : ActivityJ :=
  { id := toString dayNumber ++ "-1"
    time := "9:00 AM"
    title := destination ++ " Exploration"
    description := "AI-curated exploration of " ++ destination ++ " based on your preferences."
    location := destination ++ " Center"
    duration := "3 hours"
    travelTime := some "15 minutes"
    transportMode := some "walking"
    funFact := generateEnhancedFunFact (destination ++ " Exploration") destination "" rand
    tips := ["AI-optimized timing for best experience", "Recommended by local insights"] }

/-- `AIService.parseActivities`: activities extracted from a day chunk by the
time/activity regex, or the single generic exploration activity when nothing
matches. -/
def parseActivities (dayContent : String) (dayNumber : Nat) (destination : String)
    (rand : Nat → Nat) : List ActivityJ :=
  let activities := enumMap (fun k m =>
    let title := stripBullet m.2.trim
    ({ id := toString dayNumber ++ "-" ++ toString (k + 1)
       time := m.1
       title := if title = "" then "Activity " ++ toString (k + 1) else title
       description := jsOr (extractActivityDescription dayContent title)
         ("Explore " ++ destination ++ " with this AI-recommended activity.")
       location := jsOr (extractLocation dayContent title) destination
       duration := jsOr (extractDuration dayContent title) "2 hours"
       travelTime := some "15 minutes"
       transportMode := some "walking"
       funFact := generateEnhancedFunFact title destination
         (jsOr (extractActivityDescription dayContent title) "") (rand k)
       tips := extractActivityTips dayContent title } : ActivityJ))
    0 (timeActivityMatches dayContent)
  if activities.isEmpty then [defaultExplorationActivity dayNumber destination (rand 0)]
  else activities

/-- `AIService.parseMeals`: meal slots scraped from a day chunk by the
breakfast/lunch/dinner regex (later matches overwrite earlier ones for the
same slot), with fixed defaults for the slots that stay empty. -/
def parseMeals (dayContent : String) (travelInfo : TravelInfo) : MealsJ :=
  let scanned := (keywordCaptures ["breakfast", "lunch", "dinner"] tipStops
    dayContent).foldl
    (fun (acc : Option MealSuggestion × Option MealSuggestion × Option MealSuggestion) m =>
      let cap := m.2.trim
      let capName : String :=
        if m.1 == "breakfast" then "Breakfast"
        else if m.1 == "lunch" then "Lunch" else "Dinner"
      let meal : MealSuggestion :=
        { restaurant := if cap = "" then "AI-Selected " ++ capName ++ " Spot" else cap
          cuisine := "Local"
          location := travelInfo.destination
          priceRange := if travelInfo.budget = "Economy" then "$"
            else if travelInfo.budget = "Premium" then "$$" else "$$$"
          specialties := ["AI-recommended dishes", "Local favorites"] }
      if m.1 == "breakfast" then (some meal, acc.2.1, acc.2.2)
      else if m.1 == "lunch" then (acc.1, some meal, acc.2.2)
      else (acc.1, acc.2.1, some meal))
    (none, none, none)
  { breakfast := some (scanned.1.getD
      { restaurant := "AI-Selected Morning Café"
        cuisine := "Local"
        location := travelInfo.destination ++ " Center"
        priceRange := if travelInfo.budget = "Economy" then "$" else "$$"
        specialties := ["Fresh pastries", "Local coffee", "AI-recommended breakfast"] })
    lunch := some (scanned.2.1.getD
      { restaurant := "AI-Curated Lunch Spot"
        cuisine := "Regional"
        location := "Near attractions"
        priceRange := if travelInfo.budget = "Economy" then "$"
          else if travelInfo.budget = "Premium" then "$$" else "$$$"
        specialties := ["Regional specialties", "AI-selected dishes"] })
    dinner := some (scanned.2.2.getD
      { restaurant := "AI-Recommended Evening Dining"
        cuisine := "Fine Dining"
        location := travelInfo.destination ++ " Dining District"
        priceRange := if travelInfo.budget = "Economy" then "$$" else "$$$"
        specialties := ["Chef specials", "AI-curated menu", "Local favorites"] }) }

/-- A "Day N" marker (`Day \d+`, case-insensitive) starts at this position. -/
def isDayMarker (l : List Char) : Bool :=
  match l with
  | d :: a :: y :: sp :: c :: _ =>
    d.toLower == 'd' && a.toLower == 'a' && y.toLower == 'y' && sp == ' ' && c.isDigit
  | _ => false

/-- Take characters up to (excluding) the next "Day N" marker. -/
def takeUntilDayMarker : Nat → List Char → List Char × List Char
  | 0, l => ([], l)
  | _ + 1, [] => ([], [])
  | fuel + 1, c :: cs =>
    if isDayMarker (c :: cs) then ([], c :: cs)
    else
      let (t, r) := takeUntilDayMarker fuel cs
      (c :: t, r)

/-- Chunking loop for `/Day \d+[:\-\s]*(.*?)(?=Day \d+|$)/gis`. -/
def daySplitGo : Nat → List Char → List String
  | 0, _ => []
  | _ + 1, [] => []
  | fuel + 1, c :: cs =>
    if isDayMarker (c :: cs) then
      let (t, r) := takeUntilDayMarker fuel cs
      String.mk (c :: t) :: daySplitGo fuel r
    else daySplitGo fuel cs

/-- The `content.match(/Day \d+.../gis)` day chunks, in source order. -/
def daySplit (s : String) : List String :=
  daySplitGo (s.length + 1) s.data

/-- `AIService.parseTextItinerary`: the heuristic text-parsing path. One
`DayJ` per requested day, numbered from 1, dated consecutively from the
start date; the day chunk (empty when the text has fewer "Day N" sections)
feeds the activity/meal/tip extractors. -/
def parseTextItinerary (content : String) (travelInfo : TravelInfo)
    (rand : Nat → Nat → Nat) : List DayJ :=
  let dayMatches := daySplit content
  (List.range travelInfo.numberOfDays).map fun i =>
    let dayContent := (dayMatches[i]?).getD ""
    { day := i + 1
      date := travelInfo.startDate + i
      activities := parseActivities dayContent (i + 1) travelInfo.destination (rand i)
      meals := parseMeals dayContent travelInfo
      travelTips := extractTravelTips dayContent }

/-- The post-processing loop of `AIService.parseAIResponse` on a successfully
parsed itinerary: every activity gets a fresh positional id, and
`travelTime`/`transportMode` are assigned unconditionally. -/
def postProcessGeneration (days : List DayJ) : List DayJ :=
  days.map fun day =>
    { day with activities := enumMap (fun k a =>
        { a with id := toString day.day ++ "-" ++ toString (k + 1)
                 travelTime := some "15 minutes"
                 transportMode := some "walking" }) 0 day.activities }

/-- `AIService.parseAIResponse` (itinerary part).  `parsed` is the outcome of
fence-stripping plus `JSON.parse` on the raw reply: `none` models a parse
exception, `some none` a parsed object without a truthy `itinerary` field;
both fall back to the heuristic text path on the markdown-cleaned content
(supplied as `cleanedContent`; the cleaning itself is external string work
that no claim depends on). -/
def parseAIResponse (parsed : Option (Option (List DayJ))) (cleanedContent : String)
    (travelInfo : TravelInfo) (rand : Nat → Nat → Nat) : List DayJ :=
  match parsed with
  | some (some days) => postProcessGeneration days
  | some none => parseTextItinerary cleanedContent travelInfo rand
  | none => parseTextItinerary cleanedContent travelInfo rand

/-- The post-processing loop of `AIService.parseItineraryUpdate`: fresh
positional ids, but `travelTime`/`transportMode` only defaulted when absent
(the `||` idiom). -/
def postProcessUpdate (days : List DayJ) : List DayJ :=
  days.map fun day =>
    { day with activities := enumMap (fun k a =>
        { a with id := toString day.day ++ "-" ++ toString (k + 1)
                 travelTime := some (jsOr a.travelTime "15 minutes")
                 transportMode := some (jsOr a.transportMode "walking") }) 0 day.activities }

/-- `AIService.parseItineraryUpdate`: accepts the parsed reply only when it
carries an `itinerary` array, in which case the reply replaces the plan
wholesale; otherwise the current plan is returned unchanged. -/
def parseItineraryUpdate (parsed : Option (Option (List DayJ)))
    (currentPlan : TripPlan) : TripPlan :=
  match parsed with
  | some (some days) => { itinerary := postProcessUpdate days }
  | _ => currentPlan

/-- `AIService.generateMockUpdate`: rewrites the title and description of the
first activity of the first day (when both exist). -/
def generateMockUpdate (updateRequest : String) (currentPlan : TripPlan) : TripPlan :=
  match currentPlan.itinerary with
  | [] => currentPlan
  | firstDay :: restDays =>
    match firstDay.activities with
    | [] => currentPlan
    | firstActivity :: restActivities =>
      { itinerary :=
          { firstDay with activities :=
              { firstActivity with
                  title := "Updated: " ++ firstActivity.title
                  description := firstActivity.description
                    ++ " (Updated based on your request: \x22" ++ updateRequest ++ "\x22)" }
                :: restActivities } :: restDays }

/-- Outcome of the model call inside the mutators: the HTTP/network layer
failed, or a text reply arrived whose `JSON.parse` outcome is given. -/
inductive ModelCall where
  | fails : ModelCall
  | returns : Option (Option (List DayJ)) → ModelCall
  deriving DecidableEq, Repr

/-- `AIService.updateItinerary`: the free-text update operation.  With no
credential, or on a failed call, the mock update is applied; a received
reply goes through `parseItineraryUpdate`. -/
def updateItinerary (configured : Bool) (call : ModelCall) (updateRequest : String)
    (currentPlan : TripPlan) : TripPlan :=
  if !configured then generateMockUpdate updateRequest currentPlan
  else
    match call with
    | .fails => generateMockUpdate updateRequest currentPlan
    | .returns parsed => parseItineraryUpdate parsed currentPlan

/-- `itinerary.findIndex(day => day.day === dayNumber)` followed by an indexed
replacement: the first day with the given number is rewritten by `f`. -/
def setFirstDayWith (dayNumber : Nat) (f : DayJ → DayJ) : List DayJ → List DayJ
  | [] => []
  | d :: ds =>
    if d.day = dayNumber then f d :: ds
    else d :: setFirstDayWith dayNumber f ds

/-- The structure fix-up of `parseRegeneratedDay` on the model-supplied day:
ids keyed to the requested day number, `||` defaults for travel fields. -/
def postProcessRegeneratedDay (dayNumber : Nat) (newDay : DayJ) : DayJ :=
  { newDay with activities := enumMap (fun k a =>
      { a with id := toString dayNumber ++ "-" ++ toString (k + 1)
               travelTime := some (jsOr a.travelTime "15 minutes")
               transportMode := some (jsOr a.transportMode "walking") }) 0 newDay.activities }

/-- `AIService.parseRegeneratedDay`: on a parsed reply with a non-empty
`itinerary` array, the first replied day replaces (wholesale) the first plan
day carrying the requested number; on any failure the plan is returned
unchanged. -/
def parseRegeneratedDay (parsed : Option (Option (List DayJ))) (currentPlan : TripPlan)
    (dayNumber : Nat) : TripPlan :=
  match parsed with
  | some (some (newDay :: _)) =>
    { itinerary := setFirstDayWith dayNumber
        (fun _ => postProcessRegeneratedDay dayNumber newDay) currentPlan.itinerary }
  | _ => currentPlan

/-- The fixed replacement activities of `generateMockDayRegeneration`. -/
def mockRegenerationActivities (dayNumber : Nat) (travelInfo : TravelInfo) :
    List ActivityJ :=
  [{ id := toString dayNumber ++ "-1"
     time := "9:30 AM"
     title := "Alternative " ++ travelInfo.destination ++ " Experience"
     description := "A fresh perspective on " ++ travelInfo.destination
       ++ " with newly curated activities based on your preferences."
     location := travelInfo.destination ++ " Alternative District"
     duration := "2.5 hours"
     travelTime := some "15 minutes"
     transportMode := some "walking"
     funFact := "This regenerated experience offers a different angle on "
       ++ travelInfo.destination ++ "\x27s culture and attractions."
     tips := ["This is a regenerated activity with fresh recommendations",
              "Timing optimized for better experience",
              "Alternative route to avoid crowds"] },
   { id := toString dayNumber ++ "-2"
     time := "1:00 PM"
     title := "New Local Discovery"
     description := "Discover hidden gems and local favorites that offer authentic experiences away from typical tourist spots."
     location := "Local Neighborhood"
     duration := "2 hours"
     travelTime := some "20 minutes"
     transportMode := some "metro"
     funFact := "This location is frequented by locals and offers genuine cultural immersion."
     tips := ["Regenerated suggestion based on local insights",
              "Perfect for authentic cultural experience",
              "Less crowded alternative to popular spots"] }]

/-- The fixed replacement meals of `generateMockDayRegeneration`. -/
def mockRegenerationMeals (travelInfo : TravelInfo) (preferences : TripPreferences) :
    MealsJ :=
  { breakfast := some
      { restaurant := "Fresh Morning Café (New)"
        cuisine := jsIdxOr preferences.cuisinePreferences 0 "Local"
        location := travelInfo.destination ++ " Center"
        priceRange := "$$"
        specialties := ["Regenerated breakfast recommendation", "Local morning favorites"] }
    lunch := some
      { restaurant := "Alternative Lunch Spot (New)"
        cuisine := jsIdxOr preferences.cuisinePreferences 1 "Regional"
        location := "Near new activities"
        priceRange := "$$"
        specialties := ["Fresh lunch recommendation", "Local specialties"] }
    dinner := some
      { restaurant := "New Evening Dining (Regenerated)"
        cuisine := "Fine Dining"
        location := travelInfo.destination ++ " Dining District"
        priceRange := "$$$"
        specialties := ["Regenerated dinner choice", "Alternative cuisine experience"] } }

/-- `AIService.generateMockDayRegeneration`: the first day with the requested
number keeps its other fields (date included) and gets the fixed replacement
activities and meals. -/
def generateMockDayRegeneration (currentPlan : TripPlan) (dayNumber : Nat)
    (travelInfo : TravelInfo) (preferences : TripPreferences) : TripPlan :=
  { itinerary := setFirstDayWith dayNumber
      (fun originalDay =>
        { originalDay with
            activities := mockRegenerationActivities dayNumber travelInfo
            meals := mockRegenerationMeals travelInfo preferences })
      currentPlan.itinerary }

end AIService

namespace App

/-- `handleDeleteActivity` of src/src/App.tsx: on the day with the given
number, drop the activities carrying the given id; all other days pass
through the map unchanged. -/
def deleteActivity (plan : TripPlan) (dayNumber : Nat) (activityId : String) :
    TripPlan :=
  { itinerary := plan.itinerary.map fun day =>
      if day.day = dayNumber then
        { day with activities := day.activities.filter (fun a => a.id != activityId) }
      else day }

end App

namespace PlacesService

/-- `PlacesService.getFallbackImage`: the keyword-chain stock image picker for
activities. -/
def getFallbackImage (activityTitle location : String) : String :=
  let titleLower := activityTitle.toLower
  let locationLower := location.toLower
  if sIncludes titleLower "museum" || sIncludes titleLower "art" ||
      sIncludes titleLower "cultural" || sIncludes titleLower "heritage" then
    "https://images.pexels.com/photos/1174732/pexels-photo-1174732.jpeg?auto=compress&cs=tinysrgb&w=800&h=500&fit=crop"
  else if sIncludes titleLower "market" || sIncludes titleLower "shopping" ||
      sIncludes titleLower "bazaar" then
    "https://images.pexels.com/photos/1109197/pexels-photo-1109197.jpeg?auto=compress&cs=tinysrgb&w=800&h=500&fit=crop"
  else if sIncludes titleLower "food" || sIncludes titleLower "restaurant" ||
      sIncludes titleLower "dining" || sIncludes titleLower "cooking" then
    "https://images.pexels.com/photos/958545/pexels-photo-958545.jpeg?auto=compress&cs=tinysrgb&w=800&h=500&fit=crop"
  else if sIncludes titleLower "park" || sIncludes titleLower "garden" ||
      sIncludes titleLower "nature" || sIncludes titleLower "outdoor" then
    "https://images.pexels.com/photos/1761279/pexels-photo-1761279.jpeg?auto=compress&cs=tinysrgb&w=800&h=500&fit=crop"
  else if sIncludes titleLower "temple" || sIncludes titleLower "church" ||
      sIncludes titleLower "mosque" || sIncludes titleLower "spiritual" then
    "https://images.pexels.com/photos/1624496/pexels-photo-1624496.jpeg?auto=compress&cs=tinysrgb&w=800&h=500&fit=crop"
  else if sIncludes titleLower "view" || sIncludes titleLower "sunset" ||
      sIncludes titleLower "scenic" || sIncludes titleLower "lookout" then
    "https://images.pexels.com/photos/1761279/pexels-photo-1761279.jpeg?auto=compress&cs=tinysrgb&w=800&h=500&fit=crop"
  else if sIncludes locationLower "paris" then
    "https://images.pexels.com/photos/338515/pexels-photo-338515.jpeg?auto=compress&cs=tinysrgb&w=800&h=500&fit=crop"
  else if sIncludes locationLower "tokyo" || sIncludes locationLower "japan" then
    "https://images.pexels.com/photos/2506923/pexels-photo-2506923.jpeg?auto=compress&cs=tinysrgb&w=800&h=500&fit=crop"
  else if sIncludes locationLower "london" then
    "https://images.pexels.com/photos/460672/pexels-photo-460672.jpeg?auto=compress&cs=tinysrgb&w=800&h=500&fit=crop"
  else if sIncludes locationLower "rome" || sIncludes locationLower "italy" then
    "https://images.pexels.com/photos/2064827/pexels-photo-2064827.jpeg?auto=compress&cs=tinysrgb&w=800&h=500&fit=crop"
  else if sIncludes locationLower "new york" then
    "https://images.pexels.com/photos/466685/pexels-photo-466685.jpeg?auto=compress&cs=tinysrgb&w=800&h=500&fit=crop"
  else
    "https://images.pexels.com/photos/1252814/pexels-photo-1252814.jpeg?auto=compress&cs=tinysrgb&w=800&h=500&fit=crop"

/-- `PlacesService.getRestaurantFallbackImage`: cuisine-keyed stock image
picker for restaurants. -/
def getRestaurantFallbackImage (cuisine : String) : String :=
  let cuisineLower := cuisine.toLower
  if sIncludes cuisineLower "indian" then
    "https://images.pexels.com/photos/1640777/pexels-photo-1640777.jpeg?auto=compress&cs=tinysrgb&w=400&h=200&fit=crop"
  else if sIncludes cuisineLower "italian" then
    "https://images.pexels.com/photos/1279330/pexels-photo-1279330.jpeg?auto=compress&cs=tinysrgb&w=400&h=200&fit=crop"
  else if sIncludes cuisineLower "asian" || sIncludes cuisineLower "chinese" ||
      sIncludes cuisineLower "japanese" then
    "https://images.pexels.com/photos/958545/pexels-photo-958545.jpeg?auto=compress&cs=tinysrgb&w=400&h=200&fit=crop"
  else if sIncludes cuisineLower "mediterranean" then
    "https://images.pexels.com/photos/1640772/pexels-photo-1640772.jpeg?auto=compress&cs=tinysrgb&w=400&h=200&fit=crop"
  else if sIncludes cuisineLower "american" || sIncludes cuisineLower "burger" then
    "https://images.pexels.com/photos/70497/pexels-photo-70497.jpeg?auto=compress&cs=tinysrgb&w=400&h=200&fit=crop"
  else if sIncludes cuisineLower "fine" || sIncludes cuisineLower "luxury" then
    "https://images.pexels.com/photos/262978/pexels-photo-262978.jpeg?auto=compress&cs=tinysrgb&w=400&h=200&fit=crop"
  else if sIncludes cuisineLower "cafe" || sIncludes cuisineLower "coffee" then
    "https://images.pexels.com/photos/302899/pexels-photo-302899.jpeg?auto=compress&cs=tinysrgb&w=400&h=200&fit=crop"
  else
    "https://images.pexels.com/photos/67468/pexels-photo-67468.jpeg?auto=compress&cs=tinysrgb&w=400&h=200&fit=crop"

/-- What the photo backend sends back for one request: an HTTP failure, a
JSON envelope, raw image bytes (already wrapped into a blob URL), or an
unexpected content type. -/
inductive BackendReply where
  | httpError : BackendReply
  | jsonReply : Bool → Option String → Option String → BackendReply
  | imageReply : String → BackendReply
  | otherContentType : BackendReply
  deriving DecidableEq, Repr

/-- The `Map`-backed photo cache; `Map.set` is modelled by prepending (lookup
takes the most recent binding). -/
def cacheLookup (cache : List (String × String)) (key : String) : Option String :=
  (cache.find? (fun e => e.1 == key)).map (·.2)

/-- Store a binding in the cache. -/
def cacheSet (cache : List (String × String)) (key url : String) :
    List (String × String) :=
  (key, url) :: cache

/-- Observable outcome of one photo lookup: the resolved URL, the cache
afterwards, how many backend requests were issued (0 or 1), and whether the
result came from the cache. -/
structure PhotoResult where
  url : String
  cache : List (String × String)
  requests : Nat
  fromCache : Bool
  deriving DecidableEq, Repr

/-- `PlacesService.getPlacePhoto` as a cache-state transformer.  `configured`
is the Supabase-credential check; `backend` is what the edge function would
reply for this request (unused when no request is issued). -/
def getPlacePhoto (configured : Bool) (backend : BackendReply)
    (cache : List (String × String)) (activityTitle location : String) : PhotoResult :=
  let cacheKey := activityTitle ++ "-" ++ location
  match cacheLookup cache cacheKey with
  | some url => { url := url, cache := cache, requests := 0, fromCache := true }
  | none =>
    if !configured then
      { url := getFallbackImage activityTitle location, cache := cache,
        requests := 0, fromCache := false }
    else
      match backend with
      | .jsonReply success photoUrl fallbackUrl =>
        let f := jsOr fallbackUrl (getFallbackImage activityTitle location)
        match photoUrl with
        | some u =>
          if success && u != "" then
            { url := u, cache := cacheSet cache cacheKey u, requests := 1, fromCache := false }
          else
            { url := f, cache := cacheSet cache cacheKey f, requests := 1, fromCache := false }
        | none =>
          { url := f, cache := cacheSet cache cacheKey f, requests := 1, fromCache := false }
      | .imageReply blobUrl =>
        { url := blobUrl, cache := cacheSet cache cacheKey blobUrl,
          requests := 1, fromCache := false }
      | .httpError =>
        let f := getFallbackImage activityTitle location
        { url := f, cache := cacheSet cache cacheKey f, requests := 1, fromCache := false }
      | .otherContentType =>
        let f := getFallbackImage activityTitle location
        { url := f, cache := cacheSet cache cacheKey f, requests := 1, fromCache := false }

/-- `PlacesService.getRestaurantPhoto` as a cache-state transformer. -/
def getRestaurantPhoto (configured : Bool) (backend : BackendReply)
    (cache : List (String × String)) (restaurantName location cuisine : String) :
    PhotoResult :=
  let cacheKey := "restaurant-" ++ restaurantName ++ "-" ++ location
  match cacheLookup cache cacheKey with
  | some url => { url := url, cache := cache, requests := 0, fromCache := true }
  | none =>
    if !configured then
      { url := getRestaurantFallbackImage cuisine, cache := cache,
        requests := 0, fromCache := false }
    else
      match backend with
      | .jsonReply success photoUrl fallbackUrl =>
        let f := jsOr fallbackUrl (getRestaurantFallbackImage cuisine)
        match photoUrl with
        | some u =>
          if success && u != "" then
            { url := u, cache := cacheSet cache cacheKey u, requests := 1, fromCache := false }
          else
            { url := f, cache := cacheSet cache cacheKey f, requests := 1, fromCache := false }
        | none =>
          { url := f, cache := cacheSet cache cacheKey f, requests := 1, fromCache := false }
      | .imageReply blobUrl =>
        { url := blobUrl, cache := cacheSet cache cacheKey blobUrl,
          requests := 1, fromCache := false }
      | .httpError =>
        let f := getRestaurantFallbackImage cuisine
        { url := f, cache := cacheSet cache cacheKey f, requests := 1, fromCache := false }
      | .otherContentType =>
        let f := getRestaurantFallbackImage cuisine
        { url := f, cache := cacheSet cache cacheKey f, requests := 1, fromCache := false }

end PlacesService

namespace MemoryService

/-- JSON values, as produced by `JSON.parse`. -/
inductive Json where
  | null : Json
  | bool : Bool → Json
  | num : Int → Json
  | str : String → Json
  | arr : List Json → Json
  | obj : List (String × Json) → Json

/-- JavaScript truthiness of a JSON value. -/
def truthy : Json → Bool
  | .null => false
  | .bool b => b
  | .num n => n != 0
  | .str s => s != ""
  | .arr _ => true
  | .obj _ => true

/-- Property access `data.k`: `none` models `undefined` (non-objects and
missing keys). -/
def getField : Json → String → Option Json
  | .obj fields, k => (fields.find? (fun f => f.1 == k)).map (·.2)
  | _, _ => none

/-- Truthiness of a possibly-undefined value. -/
def truthyOpt : Option Json → Bool
  | none => false
  | some j => truthy j

/-- `MemoryService.validateUserProfile`: the data is truthy, `id` is a string,
`preferences` is truthy, `travelHistory` is an array, `insights` is truthy. -/
def validateUserProfile (data : Json) : Bool :=
  truthy data &&
  (match getField data "id" with
   | some (.str _) => true
   | _ => false) &&
  truthyOpt (getField data "preferences") &&
  (match getField data "travelHistory" with
   | some (.arr _) => true
   | _ => false) &&
  truthyOpt (getField data "insights")

/-- `MemoryService.importData` on the stored profile state.  The argument is
the `JSON.parse` outcome of the supplied string (`none` models a parse
exception); the result pairs the returned boolean with the profile
afterwards. -/
def importData (parsed : Option Json) (userProfile : Option Json) :
    Bool × Option Json :=
  match parsed with
  | none => (false, userProfile)
  | some imported =>
    if validateUserProfile imported then (true, some imported)
    else (false, userProfile)

/-- `MemoryService.exportData` up to JSON serialization: `JSON.stringify` of
the stored profile, whose `JSON.parse` round-trip is the stored value itself
(a null profile stringifies to "null", which parses back to the null
value). -/
def exportData (userProfile : Option Json) : Json :=
  userProfile.getD Json.null

end MemoryService

/-! ### Shared sample data and helper lemmas -/

/-- Sample trip parameters used to instantiate theorems. -/
def sampleInfo : TravelInfo :=
  { destination := "Paris, France"
    startDate := 100
    endDate := 102
    numberOfDays := 3
    budget := "Premium"
    travelGroup := "Couple"
    includeKids := false
    includeElderly := false }

/-- Sample empty preferences. -/
def samplePrefs : TripPreferences :=
  { tripType := [], cuisinePreferences := [], dietaryRequirements := [] }

/-- Sample meal suggestion. -/
def sampleMeal : MealSuggestion :=
  { restaurant := "Bistro"
    cuisine := "Local"
    location := "Paris"
    priceRange := "$$"
    specialties := [] }

/-- Sample meals object with all three slots present. -/
def sampleMeals : MealsJ :=
  { breakfast := some sampleMeal, lunch := some sampleMeal, dinner := some sampleMeal }

/-- Sample activity with model-supplied travel fields. -/
def sampleActivity : ActivityJ :=
  { id := "model-id"
    time := "9:00 AM"
    title := "Louvre"
    description := "Art museum"
    location := "Paris"
    duration := "2 hours"
    travelTime := some "30 minutes"
    transportMode := some "metro"
    funFact := ""
    tips := [] }

/-- Sample day plan. -/
def sampleDay : DayJ :=
  { day := 1
    date := 100
    activities := [sampleActivity]
    meals := sampleMeals
    travelTips := [] }

/-- Sample one-day plan. -/
def samplePlan : TripPlan :=
  { itinerary := [sampleDay] }

theorem enumMap_length (f : Nat → α → β) (k : Nat) (l : List α) :
    (enumMap f k l).length = l.length := by
  induction l generalizing k with
  | nil => rfl
  | cons a t ih => simp [enumMap, ih]

theorem enumMap_getElem? (f : Nat → α → β) (k : Nat) (l : List α) (i : Nat) :
    (enumMap f k l)[i]? = (l[i]?).map (f (k + i)) := by
  induction l generalizing k i with
  | nil => simp [enumMap]
  | cons a t ih =>
    cases i with
    | zero => simp [enumMap]
    | succ n =>
      have h := ih (k + 1) n
      simpa [enumMap, Nat.add_assoc, Nat.add_comm 1 n] using h

theorem skeleton_map_day (N : Nat) (g : Nat → DayJ) (h : ∀ i, (g i).day = i + 1) :
    ((List.range N).map g).map (fun d => d.day) = List.range' 1 N := by
  rw [List.range'_eq_map_range, List.map_map]
  exact List.map_congr_left (fun i _ => by simp [h i, Nat.add_comm])

theorem skeleton_map_date (N s : Nat) (g : Nat → DayJ) (h : ∀ i, (g i).date = s + i) :
    ((List.range N).map g).map (fun d => d.date) = List.range' s N := by
  rw [List.range'_eq_map_range, List.map_map]
  exact List.map_congr_left (fun i _ => by simp [h i])

/-! ### Claims -/

/-- C1: for every `TravelInfo` (in particular whenever `numberOfDays = N ≥ 1`),
both the AI-response text path `parseTextItinerary` and the no-credential mock
paths (`AIService.generateMockItinerary` and the mockData generator) return an
itinerary with exactly N day plans whose `day` fields are `1..N` in array
order and whose `date` fields are consecutive days starting at the start
date. -/
theorem c1_day_date_skeleton (content : String) (travelInfo : TravelInfo)
    (preferences : TripPreferences) (rand : Nat → Nat → Nat) :
    ((AIService.parseTextItinerary content travelInfo rand).map (fun d => d.day)
        = List.range' 1 travelInfo.numberOfDays
      ∧ (AIService.parseTextItinerary content travelInfo rand).map (fun d => d.date)
        = List.range' travelInfo.startDate travelInfo.numberOfDays
      ∧ (AIService.parseTextItinerary content travelInfo rand).length
        = travelInfo.numberOfDays)
    ∧ ((AIService.generateMockItinerary travelInfo preferences).map (fun d => d.day)
        = List.range' 1 travelInfo.numberOfDays
      ∧ (AIService.generateMockItinerary travelInfo preferences).map (fun d => d.date)
        = List.range' travelInfo.startDate travelInfo.numberOfDays
      ∧ (AIService.generateMockItinerary travelInfo preferences).length
        = travelInfo.numberOfDays)
    ∧ ((MockData.generateMockItinerary travelInfo preferences).itinerary.map (fun d => d.day)
        = List.range' 1 travelInfo.numberOfDays
      ∧ (MockData.generateMockItinerary travelInfo preferences).itinerary.map (fun d => d.date)
        = List.range' travelInfo.startDate travelInfo.numberOfDays
      ∧ (MockData.generateMockItinerary travelInfo preferences).itinerary.length
        = travelInfo.numberOfDays) := by
  refine ⟨⟨?_, ?_, ?_⟩, ⟨?_, ?_, ?_⟩, ⟨?_, ?_, ?_⟩⟩
  · exact skeleton_map_day _ _ (fun i => rfl)
  · exact skeleton_map_date _ _ _ (fun i => rfl)
  · simp [AIService.parseTextItinerary]
  · exact skeleton_map_day _ _ (fun i => rfl)
  · exact skeleton_map_date _ _ _ (fun i => rfl)
  · simp [AIService.generateMockItinerary]
  · exact skeleton_map_day _ _ (fun i => rfl)
  · exact skeleton_map_date _ _ _ (fun i => rfl)
  · simp [MockData.generateMockItinerary]

/-- C2 (amended): day plans produced by the heuristic text parse and by both
mock fallbacks always carry all three meal slots; the strict-JSON path does
not enforce this (see the counterexample). -/
theorem c2_three_meal_slots :
    (∀ (dayContent : String) (travelInfo : TravelInfo),
        (AIService.parseMeals dayContent travelInfo).breakfast.isSome = true
      ∧ (AIService.parseMeals dayContent travelInfo).lunch.isSome = true
      ∧ (AIService.parseMeals dayContent travelInfo).dinner.isSome = true)
    ∧ (∀ (travelInfo : TravelInfo) (preferences : TripPreferences),
        (AIService.generatePersonalizedMeals travelInfo preferences).breakfast.isSome = true
      ∧ (AIService.generatePersonalizedMeals travelInfo preferences).lunch.isSome = true
      ∧ (AIService.generatePersonalizedMeals travelInfo preferences).dinner.isSome = true)
    ∧ (∀ (content : String) (travelInfo : TravelInfo) (rand : Nat → Nat → Nat),
        (AIService.parseTextItinerary content travelInfo rand).all
          (fun d => d.meals.breakfast.isSome && d.meals.lunch.isSome && d.meals.dinner.isSome)
          = true)
    ∧ (∀ (travelInfo : TravelInfo) (preferences : TripPreferences),
        (AIService.generateMockItinerary travelInfo preferences).all
          (fun d => d.meals.breakfast.isSome && d.meals.lunch.isSome && d.meals.dinner.isSome)
          = true)
    ∧ (∀ (travelInfo : TravelInfo) (preferences : TripPreferences),
        (MockData.generateMockItinerary travelInfo preferences).itinerary.all
          (fun d => d.meals.breakfast.isSome && d.meals.lunch.isSome && d.meals.dinner.isSome)
          = true) := by
  have hp : ∀ (dayContent : String) (travelInfo : TravelInfo),
      (AIService.parseMeals dayContent travelInfo).breakfast.isSome = true
    ∧ (AIService.parseMeals dayContent travelInfo).lunch.isSome = true
    ∧ (AIService.parseMeals dayContent travelInfo).dinner.isSome = true := by
    intro dayContent travelInfo
    simp [AIService.parseMeals]
  refine ⟨hp, ?_, ?_, ?_, ?_⟩
  · intro travelInfo preferences
    simp [AIService.generatePersonalizedMeals]
  · intro content travelInfo rand
    rw [List.all_eq_true]
    intro d hd
    simp only [AIService.parseTextItinerary, List.mem_map, List.mem_range] at hd
    obtain ⟨i, _, rfl⟩ := hd
    simp [(hp _ travelInfo).1, (hp _ travelInfo).2.1, (hp _ travelInfo).2.2]
  · intro travelInfo preferences
    rw [List.all_eq_true]
    intro d hd
    simp only [AIService.generateMockItinerary, List.mem_map, List.mem_range] at hd
    obtain ⟨i, _, rfl⟩ := hd
    simp [AIService.generatePersonalizedMeals]
  · intro travelInfo preferences
    rw [List.all_eq_true]
    intro d hd
    simp only [MockData.generateMockItinerary, List.mem_map, List.mem_range] at hd
    obtain ⟨i, _, rfl⟩ := hd
    simp

/-- C2 counterexample: a strict-JSON reply whose day has an empty meals object
passes through `parseAIResponse` with all three slots still absent, so the
claim "every generation path yields exactly the three meal slots" fails on
the strict-JSON path. -/
theorem c2_counterexample :
    (AIService.parseAIResponse
        (some (some [{ sampleDay with
                        meals := { breakfast := none, lunch := none, dinner := none } }]))
        "" sampleInfo (fun _ _ => 0)).map
      (fun d => (d.meals.breakfast.isSome, d.meals.lunch.isSome, d.meals.dinner.isSome))
      = [(false, false, false)] := by
  rfl

/-- C4 (amended): the four-category day (historical centre, market, museum,
sunset viewpoint, plus a night adventure tour for adventure trip styles)
is produced by the mockData generator used as the App-level error fallback;
the AIService no-credential path instead produces a single cultural-quarter
activity, plus an adventure activity for adventure trip styles. -/
theorem c4_fallback_activities :
    (∀ (day : Nat) (destination : String) (preferences : TripPreferences),
        (MockData.generateDayActivities day destination preferences).map (fun a => a.title)
          = [destination ++ " Historical Center", "Local Market Experience",
             destination ++ " Art Museum", "Sunset Viewpoint"]
            ++ (if preferences.tripType.contains "adventure"
                then ["Night Adventure Tour"] else []))
    ∧ (∀ (day : Nat) (destination : String) (preferences : TripPreferences),
        4 ≤ (MockData.generateDayActivities day destination preferences).length)
    ∧ (∀ (day : Nat) (travelInfo : TravelInfo) (preferences : TripPreferences),
        (AIService.generateEnhancedActivities day travelInfo preferences).map (fun a => a.title)
          = [travelInfo.destination ++ " Cultural Quarter"]
            ++ (if preferences.tripType.contains "adventure"
                then ["Adventure Experience"] else [])) := by
  refine ⟨?_, ?_, ?_⟩
  · intro day destination preferences
    by_cases h : "adventure" ∈ preferences.tripType <;>
      simp [MockData.generateDayActivities, List.elem_iff, h]
  · intro day destination preferences
    by_cases h : "adventure" ∈ preferences.tripType <;>
      simp [MockData.generateDayActivities, List.elem_iff, h]
  · intro day travelInfo preferences
    by_cases h : "adventure" ∈ preferences.tripType <;>
      simp [AIService.generateEnhancedActivities, List.elem_iff, h]

/-- C4 counterexample: with no model credential the generation path yields a
single activity per day (here: a 1-day trip with one activity), refuting the
claimed four-per-day (cultural centre, market, museum, sunset viewpoint)
pattern for that path. -/
theorem c4_counterexample :
    ((AIService.generateMockItinerary { sampleInfo with numberOfDays := 1 } samplePrefs).map
      (fun d => d.activities.length) = [1]) ∧ ¬ (4 ≤ 1) := by
  exact ⟨rfl, by decide⟩

/-- C3 (amended): the free-text update is a no-op exactly on the configured
parse-failure paths (unparseable reply, or reply without an `itinerary`
array); with no credential configured (and likewise on a failed model call,
which routes to the same mock update) the result is not the original plan
but a mock update that rewrites the first activity of the first day. -/
theorem c3_update_failure_paths :
    (∀ (req : String) (plan : TripPlan),
        AIService.updateItinerary true (AIService.ModelCall.returns none) req plan = plan)
    ∧ (∀ (req : String) (plan : TripPlan),
        AIService.updateItinerary true (AIService.ModelCall.returns (some none)) req plan
          = plan)
    ∧ (∀ (req : String) (call : AIService.ModelCall) (dday ddate : Nat) (a : ActivityJ)
        (rest : List ActivityJ) (dmeals : MealsJ) (dtips : List String) (ds : List DayJ),
        AIService.updateItinerary false call req
            ⟨{ day := dday, date := ddate, activities := a :: rest, meals := dmeals,
               travelTips := dtips } :: ds⟩
          = ⟨{ day := dday, date := ddate,
               activities :=
                 { a with title := "Updated: " ++ a.title
                          description := a.description
                            ++ " (Updated based on your request: \x22" ++ req ++ "\x22)" }
                   :: rest,
               meals := dmeals, travelTips := dtips } :: ds⟩)
    ∧ (∀ (req : String) (plan : TripPlan),
        AIService.updateItinerary true AIService.ModelCall.fails req plan
          = AIService.generateMockUpdate req plan) := by
  refine ⟨fun req plan => rfl, fun req plan => rfl, ?_, fun req plan => rfl⟩
  intro req call dday ddate a rest dmeals dtips ds
  cases call <;> rfl

/-- C3 counterexample: with no credential configured, the update applied to a
non-empty plan is not deep-equal to the original (the first activity title
gains an "Updated:" prefix), refuting "no-op on every failing path". -/
theorem c3_counterexample :
    ¬ (AIService.updateItinerary false AIService.ModelCall.fails "add more food options"
        samplePlan = samplePlan) := by
  decide

/-- C5 (amended): on a successful strict parse, both post-processing loops
force-assign the positional id `"{day}-{k+1}"`; the generation-path loop
(`parseAIResponse`) overwrites `travelTime`/`transportMode` with
`"15 minutes"`/`"walking"` unconditionally, while the update-path loop
(`parseItineraryUpdate`) defaults them only when absent or empty. -/
theorem c5_post_processing :
    (∀ (days : List DayJ) (content : String) (travelInfo : TravelInfo)
        (rand : Nat → Nat → Nat) (j k : Nat) (d : DayJ) (a : ActivityJ),
        days[j]? = some d → d.activities[k]? = some a →
        ((AIService.parseAIResponse (some (some days)) content travelInfo rand)[j]?).map
            (fun d2 => d2.activities[k]?)
          = some (some { a with id := toString d.day ++ "-" ++ toString (k + 1)
                                travelTime := some "15 minutes"
                                transportMode := some "walking" }))
    ∧ (∀ (days : List DayJ) (plan : TripPlan) (j k : Nat) (d : DayJ) (a : ActivityJ),
        days[j]? = some d → d.activities[k]? = some a →
        (((AIService.parseItineraryUpdate (some (some days)) plan).itinerary)[j]?).map
            (fun d2 => d2.activities[k]?)
          = some (some { a with id := toString d.day ++ "-" ++ toString (k + 1)
                                travelTime := some (jsOr a.travelTime "15 minutes")
                                transportMode := some (jsOr a.transportMode "walking") })) := by
  constructor
  · intro days content travelInfo rand j k d a hj hk
    simp only [AIService.parseAIResponse, AIService.postProcessGeneration,
      List.getElem?_map, hj, Option.map_some', enumMap_getElem?, hk, Nat.zero_add]
  · intro days plan j k d a hj hk
    simp only [AIService.parseItineraryUpdate, AIService.postProcessUpdate,
      List.getElem?_map, hj, Option.map_some', enumMap_getElem?, hk, Nat.zero_add]

/-- C5 witness: the post-processing theorem applied to the sample day, whose
single activity carries model-supplied travel fields. -/
theorem c5_witness :
    (((AIService.parseAIResponse (some (some [sampleDay])) "" sampleInfo
          (fun _ _ => 0))[0]?).map (fun d2 => d2.activities[0]?)
        = some (some { sampleActivity with
                        id := toString sampleDay.day ++ "-" ++ toString (0 + 1)
                        travelTime := some "15 minutes"
                        transportMode := some "walking" }))
    ∧ ((((AIService.parseItineraryUpdate (some (some [sampleDay])) samplePlan).itinerary)[0]?).map
          (fun d2 => d2.activities[0]?)
        = some (some { sampleActivity with
                        id := toString sampleDay.day ++ "-" ++ toString (0 + 1)
                        travelTime := some (jsOr sampleActivity.travelTime "15 minutes")
                        transportMode := some (jsOr sampleActivity.transportMode "walking") })) :=
  ⟨c5_post_processing.1 [sampleDay] "" sampleInfo (fun _ _ => 0) 0 0 sampleDay sampleActivity
      rfl rfl,
   c5_post_processing.2 [sampleDay] samplePlan 0 0 sampleDay sampleActivity rfl rfl⟩

/-- C5 counterexample: the model supplied `travelTime = "30 minutes"` and
`transportMode = "metro"`, yet the generation-path post-processing rewrites
them to the defaults, refuting "only when those fields are absent". -/
theorem c5_counterexample :
    ((AIService.parseAIResponse (some (some [sampleDay])) "" sampleInfo (fun _ _ => 0)).map
        (fun d => d.activities.map (fun a => (a.travelTime, a.transportMode)))
      = [[(some "15 minutes", some "walking")]])
    ∧ sampleActivity.travelTime = some "30 minutes"
    ∧ sampleActivity.transportMode = some "metro" := by
  exact ⟨rfl, rfl, rfl⟩

/-- C6: the heuristic activity extractor is total and never yields an empty
day: it produces at least one activity for every input; when the day chunk
has no time-labelled match it synthesizes exactly the one generic
"{destination} Exploration" activity, and hence every day plan of the text
path carries at least one activity. -/
theorem c6_parse_activities_nonempty :
    (∀ (s : String) (d : Nat) (dest : String) (rand : Nat → Nat),
        1 ≤ (AIService.parseActivities s d dest rand).length)
    ∧ (∀ (s : String) (d : Nat) (dest : String) (rand : Nat → Nat),
        if AIService.timeActivityMatches s = [] then
          (AIService.parseActivities s d dest rand).map (fun a => a.title)
            = [dest ++ " Exploration"]
        else
          (AIService.parseActivities s d dest rand).length
            = (AIService.timeActivityMatches s).length)
    ∧ (∀ (content : String) (travelInfo : TravelInfo) (rand : Nat → Nat → Nat),
        (AIService.parseTextItinerary content travelInfo rand).all
          (fun dp => decide (1 ≤ dp.activities.length)) = true) := by
  have h1 : ∀ (s : String) (d : Nat) (dest : String) (rand : Nat → Nat),
      1 ≤ (AIService.parseActivities s d dest rand).length := by
    intro s d dest rand
    cases hm : AIService.timeActivityMatches s with
    | nil => simp [AIService.parseActivities, hm, enumMap]
    | cons m ms => simp [AIService.parseActivities, hm, enumMap, enumMap_length]
  refine ⟨h1, ?_, ?_⟩
  · intro s d dest rand
    cases hm : AIService.timeActivityMatches s with
    | nil =>
      simp [AIService.parseActivities, hm, enumMap, AIService.defaultExplorationActivity]
    | cons m ms =>
      simp [AIService.parseActivities, hm, enumMap, enumMap_length]
  · intro content travelInfo rand
    rw [List.all_eq_true]
    intro dp hdp
    simp only [AIService.parseTextItinerary, List.mem_map, List.mem_range] at hdp
    obtain ⟨i, _, rfl⟩ := hdp
    simpa using h1 _ (i + 1) travelInfo.destination (rand i)

/-- C7 helper: replacing the first day with a given number by a day-and-date
preserving function leaves the (day, date) skeleton pointwise unchanged. -/
theorem setFirstDayWith_day_date (n : Nat) (f : DayJ → DayJ)
    (hf : ∀ d, (f d).day = d.day ∧ (f d).date = d.date) :
    ∀ (l : List DayJ) (j : Nat),
      ((AIService.setFirstDayWith n f l)[j]?).map (fun d => (d.day, d.date))
        = (l[j]?).map (fun d => (d.day, d.date)) := by
  intro l
  induction l with
  | nil => intro j; rfl
  | cons d ds ih =>
    intro j
    by_cases h : d.day = n
    · cases j with
      | zero => simp [AIService.setFirstDayWith, h, (hf d).1, (hf d).2]
      | succ m => simp [AIService.setFirstDayWith, h]
    · cases j with
      | zero => simp [AIService.setFirstDayWith, h]
      | succ m => simpa [AIService.setFirstDayWith, h] using ih m

/-- C7 helper: entries whose day number differs from the targeted one are
untouched by the replacement. -/
theorem setFirstDayWith_ne (n : Nat) (f : DayJ → DayJ) :
    ∀ (l : List DayJ) (j : Nat) (d : DayJ),
      l[j]? = some d → d.day ≠ n →
      (AIService.setFirstDayWith n f l)[j]? = some d := by
  intro l
  induction l with
  | nil => intro j d hj _; simp at hj
  | cons d0 ds ih =>
    intro j d hj hne
    by_cases h : d0.day = n
    · cases j with
      | zero =>
        simp only [List.getElem?_cons_zero, Option.some.injEq] at hj
        exact absurd (hj ▸ h) hne
      | succ m => simpa [AIService.setFirstDayWith, h] using hj
    · cases j with
      | zero => simpa [AIService.setFirstDayWith, h] using hj
      | succ m =>
        simp only [List.getElem?_cons_succ] at hj
        simpa [AIService.setFirstDayWith, h] using ih m d hj hne

/-- C7 (amended): day regeneration on the fallback path preserves every day
number and date (replacing only activities and meals of the first day
carrying the requested number), and on both paths every day whose number
differs from the requested one is returned unchanged; on the model-success
path, however, the matched day is replaced wholesale by the model-supplied
day, so its date is whatever the model returned (see the counterexample). -/
theorem c7_regeneration_frame :
    (∀ (plan : TripPlan) (n : Nat) (travelInfo : TravelInfo)
        (preferences : TripPreferences) (j : Nat),
        (((AIService.generateMockDayRegeneration plan n travelInfo preferences).itinerary)[j]?).map
            (fun d => (d.day, d.date))
          = ((plan.itinerary)[j]?).map (fun d => (d.day, d.date)))
    ∧ (∀ (plan : TripPlan) (n : Nat) (travelInfo : TravelInfo)
        (preferences : TripPreferences) (j : Nat) (d : DayJ),
        plan.itinerary[j]? = some d → d.day ≠ n →
        ((AIService.generateMockDayRegeneration plan n travelInfo preferences).itinerary)[j]?
          = some d)
    ∧ (∀ (parsed : Option (Option (List DayJ))) (plan : TripPlan) (n : Nat)
        (j : Nat) (d : DayJ),
        plan.itinerary[j]? = some d → d.day ≠ n →
        ((AIService.parseRegeneratedDay parsed plan n).itinerary)[j]? = some d) := by
  refine ⟨?_, ?_, ?_⟩
  · intro plan n travelInfo preferences j
    exact setFirstDayWith_day_date n
      (fun originalDay =>
        { originalDay with
            activities := AIService.mockRegenerationActivities n travelInfo
            meals := AIService.mockRegenerationMeals travelInfo preferences })
      (fun d => ⟨rfl, rfl⟩) plan.itinerary j
  · intro plan n travelInfo preferences j d hj hne
    exact setFirstDayWith_ne n
      (fun originalDay =>
        { originalDay with
            activities := AIService.mockRegenerationActivities n travelInfo
            meals := AIService.mockRegenerationMeals travelInfo preferences })
      plan.itinerary j d hj hne
  · intro parsed plan n j d hj hne
    match parsed with
    | none => exact hj
    | some none => exact hj
    | some (some []) => exact hj
    | some (some (newDay :: tail)) =>
      exact setFirstDayWith_ne n
        (fun _ => AIService.postProcessRegeneratedDay n newDay)
        plan.itinerary j d hj hne

/-- C7 witness: the frame theorem applied to the sample plan (day 1) with a
regeneration request for day 2. -/
theorem c7_witness :
    ((AIService.generateMockDayRegeneration samplePlan 2 sampleInfo samplePrefs).itinerary)[0]?
        = some sampleDay
    ∧ ((AIService.parseRegeneratedDay (some (some [sampleDay])) samplePlan 2).itinerary)[0]?
        = some sampleDay :=
  ⟨c7_regeneration_frame.2.1 samplePlan 2 sampleInfo samplePrefs 0 sampleDay rfl
      (by decide),
   c7_regeneration_frame.2.2 (some (some [sampleDay])) samplePlan 2 0 sampleDay rfl
      (by decide)⟩

/-- C7 counterexample: on the model-success path the replied day (here with
date 999) replaces the matched day wholesale, so the regenerated day\x27s date
differs from its original date 100 — refuting "the named day\x27s date field
equals its original date" for that path. -/
theorem c7_counterexample :
    ((AIService.parseRegeneratedDay (some (some [{ sampleDay with date := 999 }]))
        samplePlan 1).itinerary.map (fun d => d.date) = [999])
    ∧ sampleDay.date = 100 ∧ ¬ ((999 : Nat) = 100) := by
  exact ⟨rfl, rfl, by decide⟩

/-- C8: deleting the only activity of a day leaves that day with an empty
activity list (all its other fields unchanged) and leaves every day with a
different number untouched. -/
theorem c8_delete_only_activity (plan : TripPlan) (dayNumber : Nat)
    (activityId : String) (j : Nat) (day : DayJ)
    (hj : plan.itinerary[j]? = some day) :
    (day.day ≠ dayNumber →
      (App.deleteActivity plan dayNumber activityId).itinerary[j]? = some day)
    ∧ (∀ a : ActivityJ, day.day = dayNumber → day.activities = [a] →
        a.id = activityId →
        (App.deleteActivity plan dayNumber activityId).itinerary[j]?
          = some { day with activities := [] }) := by
  constructor
  · intro hne
    simp [App.deleteActivity, List.getElem?_map, hj, hne]
  · intro a heq hacts hid
    simp [App.deleteActivity, List.getElem?_map, hj, heq, hacts, hid]

/-- C8 witness: deleting the only activity of day 1 of the sample plan, and
the frame part for a non-matching day number. -/
theorem c8_witness :
    ((App.deleteActivity samplePlan 1 "model-id").itinerary[0]?
        = some { sampleDay with activities := [] })
    ∧ ((App.deleteActivity samplePlan 2 "model-id").itinerary[0]? = some sampleDay) :=
  ⟨(c8_delete_only_activity samplePlan 1 "model-id" 0 sampleDay rfl).2 sampleActivity rfl rfl
      rfl,
   (c8_delete_only_activity samplePlan 2 "model-id" 0 sampleDay rfl).1 (by decide)⟩

theorem cacheLookup_cacheSet (c : List (String × String)) (k v : String) :
    PlacesService.cacheLookup (PlacesService.cacheSet c k v) k = some v := by
  simp [PlacesService.cacheLookup, PlacesService.cacheSet, List.find?]

theorem placePhoto_cached (cfg : Bool) (b : PlacesService.BackendReply)
    (c : List (String × String)) (t l u : String)
    (h : PlacesService.cacheLookup c (t ++ "-" ++ l) = some u) :
    PlacesService.getPlacePhoto cfg b c t l
      = { url := u, cache := c, requests := 0, fromCache := true } := by
  simp [PlacesService.getPlacePhoto, h]

theorem placePhoto_false_miss (b : PlacesService.BackendReply)
    (c : List (String × String)) (t l : String)
    (h : PlacesService.cacheLookup c (t ++ "-" ++ l) = none) :
    PlacesService.getPlacePhoto false b c t l
      = { url := PlacesService.getFallbackImage t l, cache := c,
          requests := 0, fromCache := false } := by
  simp [PlacesService.getPlacePhoto, h]

theorem placePhoto_true_caches (b : PlacesService.BackendReply)
    (c : List (String × String)) (t l : String) :
    PlacesService.cacheLookup (PlacesService.getPlacePhoto true b c t l).cache
        (t ++ "-" ++ l)
      = some (PlacesService.getPlacePhoto true b c t l).url := by
  cases hc : PlacesService.cacheLookup c (t ++ "-" ++ l) with
  | some u => simp [PlacesService.getPlacePhoto, hc]
  | none =>
    cases b with
    | httpError => simp [PlacesService.getPlacePhoto, hc, cacheLookup_cacheSet]
    | otherContentType => simp [PlacesService.getPlacePhoto, hc, cacheLookup_cacheSet]
    | imageReply bu => simp [PlacesService.getPlacePhoto, hc, cacheLookup_cacheSet]
    | jsonReply s pu fu =>
      cases pu with
      | none => simp [PlacesService.getPlacePhoto, hc, cacheLookup_cacheSet]
      | some u =>
        by_cases hsu : (s && (u != "")) = true <;>
          simp [PlacesService.getPlacePhoto, hc, hsu, cacheLookup_cacheSet]

theorem placePhoto_requests_le_one (cfg : Bool) (b : PlacesService.BackendReply)
    (c : List (String × String)) (t l : String) :
    (PlacesService.getPlacePhoto cfg b c t l).requests ≤ 1 := by
  cases hc : PlacesService.cacheLookup c (t ++ "-" ++ l) with
  | some u => simp [PlacesService.getPlacePhoto, hc]
  | none =>
    cases cfg with
    | false => simp [PlacesService.getPlacePhoto, hc]
    | true =>
      cases b with
      | httpError => simp [PlacesService.getPlacePhoto, hc]
      | otherContentType => simp [PlacesService.getPlacePhoto, hc]
      | imageReply bu => simp [PlacesService.getPlacePhoto, hc]
      | jsonReply s pu fu =>
        cases pu with
        | none => simp [PlacesService.getPlacePhoto, hc]
        | some u =>
          by_cases hsu : (s && (u != "")) = true <;>
            simp [PlacesService.getPlacePhoto, hc, hsu]

theorem restaurantPhoto_cached (cfg : Bool) (b : PlacesService.BackendReply)
    (c : List (String × String)) (n l cu u : String)
    (h : PlacesService.cacheLookup c ("restaurant-" ++ n ++ "-" ++ l) = some u) :
    PlacesService.getRestaurantPhoto cfg b c n l cu
      = { url := u, cache := c, requests := 0, fromCache := true } := by
  simp [PlacesService.getRestaurantPhoto, h]

theorem restaurantPhoto_false_miss (b : PlacesService.BackendReply)
    (c : List (String × String)) (n l cu : String)
    (h : PlacesService.cacheLookup c ("restaurant-" ++ n ++ "-" ++ l) = none) :
    PlacesService.getRestaurantPhoto false b c n l cu
      = { url := PlacesService.getRestaurantFallbackImage cu, cache := c,
          requests := 0, fromCache := false } := by
  simp [PlacesService.getRestaurantPhoto, h]

theorem restaurantPhoto_true_caches (b : PlacesService.BackendReply)
    (c : List (String × String)) (n l cu : String) :
    PlacesService.cacheLookup (PlacesService.getRestaurantPhoto true b c n l cu).cache
        ("restaurant-" ++ n ++ "-" ++ l)
      = some (PlacesService.getRestaurantPhoto true b c n l cu).url := by
  cases hc : PlacesService.cacheLookup c ("restaurant-" ++ n ++ "-" ++ l) with
  | some u => simp [PlacesService.getRestaurantPhoto, hc]
  | none =>
    cases b with
    | httpError => simp [PlacesService.getRestaurantPhoto, hc, cacheLookup_cacheSet]
    | otherContentType => simp [PlacesService.getRestaurantPhoto, hc, cacheLookup_cacheSet]
    | imageReply bu => simp [PlacesService.getRestaurantPhoto, hc, cacheLookup_cacheSet]
    | jsonReply s pu fu =>
      cases pu with
      | none => simp [PlacesService.getRestaurantPhoto, hc, cacheLookup_cacheSet]
      | some u =>
        by_cases hsu : (s && (u != "")) = true <;>
          simp [PlacesService.getRestaurantPhoto, hc, hsu, cacheLookup_cacheSet]

theorem restaurantPhoto_requests_le_one (cfg : Bool) (b : PlacesService.BackendReply)
    (c : List (String × String)) (n l cu : String) :
    (PlacesService.getRestaurantPhoto cfg b c n l cu).requests ≤ 1 := by
  cases hc : PlacesService.cacheLookup c ("restaurant-" ++ n ++ "-" ++ l) with
  | some u => simp [PlacesService.getRestaurantPhoto, hc]
  | none =>
    cases cfg with
    | false => simp [PlacesService.getRestaurantPhoto, hc]
    | true =>
      cases b with
      | httpError => simp [PlacesService.getRestaurantPhoto, hc]
      | otherContentType => simp [PlacesService.getRestaurantPhoto, hc]
      | imageReply bu => simp [PlacesService.getRestaurantPhoto, hc]
      | jsonReply s pu fu =>
        cases pu with
        | none => simp [PlacesService.getRestaurantPhoto, hc]
        | some u =>
          by_cases hsu : (s && (u != "")) = true <;>
            simp [PlacesService.getRestaurantPhoto, hc, hsu]

/-- C9 (amended): two sequential lookups with the same key issue at most one
backend request combined and resolve to the same URL (for both the activity
and the restaurant variant); when a credential is configured the second call
is served from the cache — including after failures, since every configured
branch caches its outcome.  With no credential nothing is cached and both
calls recompute the same deterministic fallback without issuing requests
(see the counterexample). -/
theorem c9_media_resolver_idempotence :
    (∀ (configured : Bool) (backend : PlacesService.BackendReply)
        (c0 : List (String × String)) (title location : String),
        (PlacesService.getPlacePhoto configured backend c0 title location).requests
            + (PlacesService.getPlacePhoto configured backend
                (PlacesService.getPlacePhoto configured backend c0 title location).cache
                title location).requests ≤ 1
        ∧ (PlacesService.getPlacePhoto configured backend
              (PlacesService.getPlacePhoto configured backend c0 title location).cache
              title location).url
            = (PlacesService.getPlacePhoto configured backend c0 title location).url)
    ∧ (∀ (backend : PlacesService.BackendReply) (c0 : List (String × String))
        (title location : String),
        (PlacesService.getPlacePhoto true backend
            (PlacesService.getPlacePhoto true backend c0 title location).cache
            title location).fromCache = true)
    ∧ (∀ (configured : Bool) (backend : PlacesService.BackendReply)
        (c0 : List (String × String)) (nm location cuisine : String),
        (PlacesService.getRestaurantPhoto configured backend c0 nm location cuisine).requests
            + (PlacesService.getRestaurantPhoto configured backend
                (PlacesService.getRestaurantPhoto configured backend c0 nm location cuisine).cache
                nm location cuisine).requests ≤ 1
        ∧ (PlacesService.getRestaurantPhoto configured backend
              (PlacesService.getRestaurantPhoto configured backend c0 nm location cuisine).cache
              nm location cuisine).url
            = (PlacesService.getRestaurantPhoto configured backend c0 nm location cuisine).url)
    ∧ (∀ (backend : PlacesService.BackendReply) (c0 : List (String × String))
        (nm location cuisine : String),
        (PlacesService.getRestaurantPhoto true backend
            (PlacesService.getRestaurantPhoto true backend c0 nm location cuisine).cache
            nm location cuisine).fromCache = true) := by
  have hsecond : ∀ (b : PlacesService.BackendReply) (c0 : List (String × String))
      (t l : String),
      PlacesService.getPlacePhoto true b (PlacesService.getPlacePhoto true b c0 t l).cache t l
        = { url := (PlacesService.getPlacePhoto true b c0 t l).url,
            cache := (PlacesService.getPlacePhoto true b c0 t l).cache,
            requests := 0, fromCache := true } :=
    fun b c0 t l => placePhoto_cached true b _ t l _ (placePhoto_true_caches b c0 t l)
  have hsecondR : ∀ (b : PlacesService.BackendReply) (c0 : List (String × String))
      (n l cu : String),
      PlacesService.getRestaurantPhoto true b
          (PlacesService.getRestaurantPhoto true b c0 n l cu).cache n l cu
        = { url := (PlacesService.getRestaurantPhoto true b c0 n l cu).url,
            cache := (PlacesService.getRestaurantPhoto true b c0 n l cu).cache,
            requests := 0, fromCache := true } :=
    fun b c0 n l cu =>
      restaurantPhoto_cached true b _ n l cu _ (restaurantPhoto_true_caches b c0 n l cu)
  refine ⟨?_, ?_, ?_, ?_⟩
  · intro cfg b c0 t l
    cases cfg with
    | true =>
      rw [hsecond b c0 t l]
      exact ⟨by simpa using placePhoto_requests_le_one true b c0 t l, rfl⟩
    | false =>
      cases hc : PlacesService.cacheLookup c0 (t ++ "-" ++ l) with
      | some u =>
        have h1 := placePhoto_cached false b c0 t l u hc
        rw [h1]
        rw [h1]
        simp
      | none =>
        have h1 := placePhoto_false_miss b c0 t l hc
        rw [h1]
        rw [h1]
        simp
  · intro b c0 t l
    rw [hsecond b c0 t l]
  · intro cfg b c0 n l cu
    cases cfg with
    | true =>
      rw [hsecondR b c0 n l cu]
      exact ⟨by simpa using restaurantPhoto_requests_le_one true b c0 n l cu, rfl⟩
    | false =>
      cases hc : PlacesService.cacheLookup c0 ("restaurant-" ++ n ++ "-" ++ l) with
      | some u =>
        have h1 := restaurantPhoto_cached false b c0 n l cu u hc
        rw [h1]
        rw [h1]
        simp
      | none =>
        have h1 := restaurantPhoto_false_miss b c0 n l cu hc
        rw [h1]
        rw [h1]
        simp
  · intro b c0 n l cu
    rw [hsecondR b c0 n l cu]

/-- C9 counterexample: with no credential configured, the first (failing-ish)
lookup caches nothing, so the second identical lookup is not served from the
cache — refuting "the second call is served from the process-local cache /
fallback URLs are cached" in the credential-absent mode (both calls still
return the same fallback URL and issue no request). -/
theorem c9_counterexample :
    (PlacesService.getPlacePhoto false PlacesService.BackendReply.httpError []
        "Louvre" "Paris").cache = ([] : List (String × String))
    ∧ (PlacesService.getPlacePhoto false PlacesService.BackendReply.httpError
        (PlacesService.getPlacePhoto false PlacesService.BackendReply.httpError []
          "Louvre" "Paris").cache "Louvre" "Paris").fromCache = false := by
  exact ⟨rfl, rfl⟩

/-- A well-formed persisted profile, as validated by the import path. -/
def validProfileJson : MemoryService.Json :=
  MemoryService.Json.obj
    [("id", MemoryService.Json.str "user_1"),
     ("preferences", MemoryService.Json.obj []),
     ("travelHistory", MemoryService.Json.arr []),
     ("insights", MemoryService.Json.obj [])]

/-- A profile whose `preferences` and `insights` are truthy non-objects. -/
def badPreferencesProfile : MemoryService.Json :=
  MemoryService.Json.obj
    [("id", MemoryService.Json.str "user_1"),
     ("preferences", MemoryService.Json.num 5),
     ("travelHistory", MemoryService.Json.arr []),
     ("insights", MemoryService.Json.num 1)]

/-- C10 (amended): import returns false and leaves the stored profile
unchanged on parse failure and on validation failure; it returns true and
replaces the profile exactly when validation passes — which checks that `id`
is a string and `travelHistory` an array but only that `preferences` and
`insights` are truthy (not that they are objects) — and import of an
exported valid profile restores that profile. -/
theorem c10_import_export (j p : MemoryService.Json)
    (profile : Option MemoryService.Json)
    (hbad : MemoryService.validateUserProfile j = false)
    (hgood : MemoryService.validateUserProfile p = true) :
    MemoryService.importData none profile = (false, profile)
    ∧ MemoryService.importData (some j) profile = (false, profile)
    ∧ MemoryService.importData (some p) profile = (true, some p)
    ∧ MemoryService.importData (some (MemoryService.exportData (some p))) none
        = (true, some p) := by
  refine ⟨rfl, ?_, ?_, ?_⟩
  · simp [MemoryService.importData, hbad]
  · simp [MemoryService.importData, hgood]
  · simp [MemoryService.importData, MemoryService.exportData, hgood]

/-- C10 witness: the import/export theorem at a concrete malformed value and
a concrete valid profile. -/
theorem c10_witness :
    MemoryService.importData none none = (false, none)
    ∧ MemoryService.importData (some (MemoryService.Json.num 0)) none = (false, none)
    ∧ MemoryService.importData (some validProfileJson) none = (true, some validProfileJson)
    ∧ MemoryService.importData (some (MemoryService.exportData (some validProfileJson))) none
        = (true, some validProfileJson) :=
  c10_import_export (MemoryService.Json.num 0) validProfileJson none rfl rfl

/-- C10 counterexample: a profile whose `preferences` is the number 5 and
whose `insights` is the number 1 is accepted by import (returns true and
replaces the profile), refuting "returns true only when the parsed value has
a preferences object ... and an insights object". -/
theorem c10_counterexample :
    MemoryService.importData (some badPreferencesProfile) none
        = (true, some badPreferencesProfile)
    ∧ MemoryService.getField badPreferencesProfile "preferences"
        = some (MemoryService.Json.num 5)
    ∧ MemoryService.getField badPreferencesProfile "insights"
        = some (MemoryService.Json.num 1) := by
  exact ⟨rfl, rfl, rfl⟩

end TravelPlanner
